import Mathlib

/-!
Verification of the agent-engine playground repository.

The development shallowly embeds the parts of the code the specification
talks about:

* `Config.from_env` and `get_config` — the configuration resolvers of
  `src/config.py` and `src/deploy.py`, over an explicit environment
  mapping `Env` (Python's `os.getenv` semantics: a default applies only
  when the variable is unset, and `if not x` treats both `None` and the
  empty string as falsy).
* `calculate` — the calculator tool of `src/agents/adk_agent.py`: a
  character whitelist followed by Python `eval` of the arithmetic
  expression.  The semantics of `eval` on whitelist-passing input is
  embedded as a lexer, a recursive-descent parser for the Python
  expression grammar restricted to the whitelisted alphabet
  (numbers, `+ - * / // ** ( )` and unary signs), and an evaluator over
  Python numeric values.  Python ints are embedded as `ℤ`; Python floats
  are embedded as exact integer fractions (`PyFloat`; every float
  operation a claim exercises is exact in IEEE double as well); float
  operations with no exact rational meaning (a non-integral exponent)
  are mapped to an explicit `unmodelled` error value, which no claim
  touches.
* `get_current_time` — the clock tool, over a stubbed instant, with
  `strftime "%Y-%m-%d %H:%M:%S"` embedded as zero-padded decimal fields.
* the `__main__` command dispatch of `src/deploy.py`, with the external
  platform calls (`agent_engines.create` / `delete` / `list`) passed in
  as explicit results and the console printers accumulated into a list
  of printed lines.
-/

/-! ## Environment mappings and the configuration resolver (src/config.py) -/

/-- A process environment: a partial mapping from variable names to values,
`none` meaning the variable is unset. -/
def Env : Type := String → Option String

/-- Python `os.getenv(name, default)`: the default applies only when the
variable is unset; a variable set to the empty string yields `""`. -/
def getenvD (env : Env) (name dflt : String) : String :=
  (env name).getD dflt

/-- Python truthiness of an `Optional[str]`: `None` and `""` are falsy. -/
def strOptTruthy : Option String → Bool
  | none => false
  | some s => !(s = "")

/-- The `Config` dataclass of src/config.py. -/
structure Config where
  project_id : String
  location : String
  staging_bucket : Option String
  model_name : String
deriving Repr, DecidableEq

/-- The error message of `Config.from_env` when `GOOGLE_CLOUD_PROJECT` is
missing or empty (the `ValueError` text of src/config.py, lines 31-34). -/
def missingProjectMsg : String :=
  "GOOGLE_CLOUD_PROJECT environment variable is required. Copy env.example to .env and set your project ID."

/-- `Config.from_env` (src/config.py, lines 27-42): raises `ValueError`
when `GOOGLE_CLOUD_PROJECT` is unset or empty, otherwise builds the config
with `os.getenv` defaults for the optional fields. -/
def Config.from_env (env : Env) : Except String Config :=
  match env "GOOGLE_CLOUD_PROJECT" with
  | none => .error missingProjectMsg
  | some p =>
    if p = "" then .error missingProjectMsg
    else .ok
      { project_id := p
        location := getenvD env "GOOGLE_CLOUD_LOCATION" "us-central1"
        staging_bucket := env "AGENT_ENGINE_STAGING_BUCKET"
        model_name := getenvD env "MODEL_NAME" "gemini-2.0-flash" }

/-! ## The calculator tool (src/agents/adk_agent.py, `calculate`)

The source guards the input by a character whitelist and then calls
Python `eval`.  The semantics of `eval` on the whitelisted alphabet is
the Python expression grammar restricted to numeric literals,
`+ - * / // ** ( )`, unary signs and parentheses, evaluated over Python
ints (embedded as `ℤ`) and floats (embedded as exact fractions). -/

/-- A Python float, modelled as an exact (unreduced) integer fraction
`num / den` with `den` kept positive by every operation below; every
float operation a claim exercises is exact in IEEE double as well. -/
structure PyFloat where
  num : ℤ
  den : ℤ
deriving Repr, DecidableEq

/-- The rational value of an embedded float (specification only; the
operational definitions below compute on the fraction pairs). -/
def PyFloat.val (x : PyFloat) : ℚ := (x.num : ℚ) / (x.den : ℚ)

/-- The float representing an int (Python's int-to-float promotion). -/
def PyFloat.ofInt (i : ℤ) : PyFloat := ⟨i, 1⟩

/-- Whether the float is zero. -/
def PyFloat.isZero (x : PyFloat) : Bool := x.num = 0

/-- Whether the float is negative (the denominator is positive). -/
def PyFloat.isNeg (x : PyFloat) : Bool := x.num < 0

/-- Float addition. -/
def PyFloat.add (x y : PyFloat) : PyFloat := ⟨x.num * y.den + y.num * x.den, x.den * y.den⟩

/-- Float subtraction. -/
def PyFloat.sub (x y : PyFloat) : PyFloat := ⟨x.num * y.den - y.num * x.den, x.den * y.den⟩

/-- Float multiplication. -/
def PyFloat.mul (x y : PyFloat) : PyFloat := ⟨x.num * y.num, x.den * y.den⟩

/-- Float division (the divisor is checked nonzero by the caller); the
sign moves to the numerator to keep the denominator positive. -/
def PyFloat.div (x y : PyFloat) : PyFloat :=
  if 0 ≤ y.num then ⟨x.num * y.den, x.den * y.num⟩
  else ⟨-(x.num * y.den), x.den * (-y.num)⟩

/-- Float negation. -/
def PyFloat.neg (x : PyFloat) : PyFloat := ⟨-x.num, x.den⟩

/-- Float absolute value. -/
def PyFloat.abs (x : PyFloat) : PyFloat := ⟨|x.num|, x.den⟩

/-- The floor of a float, as an integer (`Int.fdiv` floors). -/
def PyFloat.floor (x : PyFloat) : ℤ := Int.fdiv x.num x.den

/-- Whether the float has an integral value. -/
def PyFloat.isIntegral (x : PyFloat) : Bool := Int.emod x.num x.den = 0

/-- The float raised to a natural power. -/
def PyFloat.powNat (x : PyFloat) (k : Nat) : PyFloat := ⟨x.num ^ k, x.den ^ k⟩

/-- A Python numeric value: an `int` or a `float`. -/
inductive PyVal where
  | int (i : ℤ)
  | float (x : PyFloat)
deriving Repr, DecidableEq

/-- Errors `eval` can raise on whitelisted input: a `ZeroDivisionError`
(with its message), a `SyntaxError` / `TypeError` from a malformed
expression, or an operation outside the exact-rational float model
(a non-integral exponent). -/
inductive PyErr where
  | zeroDiv (msg : String)
  | invalidExpr
  | unmodelled
deriving Repr, DecidableEq

/-- The `str(e)` text used by the calculator's `except` branch. -/
def pyErrMsg : PyErr → String
  | .zeroDiv m => m
  | .invalidExpr => "invalid syntax"
  | .unmodelled => "unmodelled float operation"

/-- Decimal digits of a natural number, most significant first
(fuel-based; the fuel in `natDigits` always suffices). -/
def natDigitsAux : Nat → Nat → List Char
  | 0, _ => []
  | fuel + 1, n =>
    if n < 10 then [Nat.digitChar n]
    else natDigitsAux fuel (n / 10) ++ [Nat.digitChar (n % 10)]

/-- Decimal digit characters of a natural number (`"0"` for zero). -/
def natDigits (n : Nat) : List Char :=
  natDigitsAux (n + 1) n

/-- Python `str` of an int: optional minus sign and decimal digits. -/
def intRepr (i : ℤ) : String :=
  (if i < 0 then "-" else "") ++ (⟨natDigits i.natAbs⟩ : String)

/-- Fractional decimal digits of a float with `0 ≤ value < 1`, one digit
per fuel step, stopping at an exact representation. -/
def fracDigitsAux : Nat → PyFloat → List Char
  | 0, _ => []
  | fuel + 1, q =>
    if q.isZero then []
    else
      let m := q.mul (PyFloat.ofInt 10)
      Nat.digitChar m.floor.toNat :: fracDigitsAux fuel (m.sub (PyFloat.ofInt m.floor))

/-- Python `str` of a float: sign, integer part, decimal point and
fractional digits (`"2.0"` for the integral float 2).  Exact finite
decimal expansions are printed exactly; the 17-digit cut-off mirrors the
precision of `repr` on IEEE doubles. -/
def floatRepr (q : PyFloat) : String :=
  let sign : String := if q.isNeg then "-" else ""
  let a := q.abs
  let ip := a.floor.toNat
  let fr := a.sub (PyFloat.ofInt a.floor)
  let ds := if fr.isZero then ['0'] else fracDigitsAux 17 fr
  sign ++ (⟨natDigits ip⟩ : String) ++ "." ++ (⟨ds⟩ : String)

/-- Python `str` on a numeric value. -/
def pyStr : PyVal → String
  | .int i => intRepr i
  | .float q => floatRepr q

/-! ### Lexer -/

/-- Tokens of the whitelisted expression alphabet. -/
inductive Tok where
  | num (v : PyVal)
  | plus | minus | star | slash | dstar | dslash | lparen | rparen
deriving Repr, DecidableEq

/-- Value of a list of decimal digit characters. -/
def digitsVal (ds : List Char) : Nat :=
  ds.foldl (fun a c => a * 10 + (c.toNat - 48)) 0

/-- Value of a float literal with integer part `ip` and fractional part
`fp` (either possibly empty, as in Python's `1.` and `.5`). -/
def mkFloatLit (ip fp : List Char) : PyFloat :=
  ⟨(digitsVal ip : ℤ) * (10 : ℤ) ^ fp.length + (digitsVal fp : ℤ), (10 : ℤ) ^ fp.length⟩

/-- The Python tokenizer on the whitelisted alphabet: spaces separate
tokens, `**` and `//` are two-character operators, a numeric literal is
`digits`, `digits.digits`, `digits.` or `.digits`, a lone `.` is a
syntax error, and an integer literal with a leading zero (other than
`0` itself) is a syntax error. -/
def lex : Nat → List Char → Except PyErr (List Tok)
  | 0, _ => .error .invalidExpr
  | _, [] => .ok []
  | fuel + 1, c :: cs =>
    if c = ' ' then lex fuel cs
    else if c = '+' then (Tok.plus :: ·) <$> lex fuel cs
    else if c = '-' then (Tok.minus :: ·) <$> lex fuel cs
    else if c = '(' then (Tok.lparen :: ·) <$> lex fuel cs
    else if c = ')' then (Tok.rparen :: ·) <$> lex fuel cs
    else if c = '*' then
      match cs with
      | '*' :: cs2 => (Tok.dstar :: ·) <$> lex fuel cs2
      | _ => (Tok.star :: ·) <$> lex fuel cs
    else if c = '/' then
      match cs with
      | '/' :: cs2 => (Tok.dslash :: ·) <$> lex fuel cs2
      | _ => (Tok.slash :: ·) <$> lex fuel cs
    else if c.isDigit ∨ c = '.' then
      let s1 := (c :: cs).span (fun d => d.isDigit)
      match s1.2 with
      | '.' :: rest2 =>
        let s2 := rest2.span (fun d => d.isDigit)
        if s1.1 = [] ∧ s2.1 = [] then .error .invalidExpr
        else (Tok.num (.float (mkFloatLit s1.1 s2.1)) :: ·) <$> lex fuel s2.2
      | _ =>
        if 1 < s1.1.length ∧ s1.1.head? = some '0' then .error .invalidExpr
        else (Tok.num (.int (digitsVal s1.1)) :: ·) <$> lex fuel s1.2
    else .error .invalidExpr

/-! ### Parser

Python's expression grammar restricted to the whitelisted alphabet:

    expr   := term (("+" | "-") term)*
    term   := factor (("*" | "/" | "//") factor)*
    factor := ("+" | "-") factor | power
    power  := atom ["**" factor]
    atom   := NUMBER | "(" expr ")"

(the right operand of `**` is a unary expression, so `2 ** -1` parses and
`-2 ** 2` is `-(2 ** 2)`, as in Python). -/

/-- Binary operators of the whitelisted grammar. -/
inductive BinOp where
  | add | sub | mul | div | floorDiv | pow
deriving Repr, DecidableEq

/-- Abstract syntax of a whitelisted Python expression. -/
inductive PyExpr where
  | lit (v : PyVal)
  | neg (a : PyExpr)
  | pos (a : PyExpr)
  | bin (op : BinOp) (a b : PyExpr)
deriving Repr

mutual

/-- `expr`: a term followed by additive operators. -/
def pExpr : Nat → List Tok → Option (PyExpr × List Tok)
  | 0, _ => none
  | fuel + 1, ts => do
    let (a, ts1) ← pTerm fuel ts
    pExprLoop fuel a ts1

/-- Additive-operator loop of `expr`. -/
def pExprLoop : Nat → PyExpr → List Tok → Option (PyExpr × List Tok)
  | 0, _, _ => none
  | fuel + 1, a, ts =>
    match ts with
    | Tok.plus :: ts1 => do
      let (b, ts2) ← pTerm fuel ts1
      pExprLoop fuel (PyExpr.bin BinOp.add a b) ts2
    | Tok.minus :: ts1 => do
      let (b, ts2) ← pTerm fuel ts1
      pExprLoop fuel (PyExpr.bin BinOp.sub a b) ts2
    | _ => some (a, ts)

/-- `term`: a factor followed by multiplicative operators. -/
def pTerm : Nat → List Tok → Option (PyExpr × List Tok)
  | 0, _ => none
  | fuel + 1, ts => do
    let (a, ts1) ← pFactor fuel ts
    pTermLoop fuel a ts1

/-- Multiplicative-operator loop of `term`. -/
def pTermLoop : Nat → PyExpr → List Tok → Option (PyExpr × List Tok)
  | 0, _, _ => none
  | fuel + 1, a, ts =>
    match ts with
    | Tok.star :: ts1 => do
      let (b, ts2) ← pFactor fuel ts1
      pTermLoop fuel (PyExpr.bin BinOp.mul a b) ts2
    | Tok.slash :: ts1 => do
      let (b, ts2) ← pFactor fuel ts1
      pTermLoop fuel (PyExpr.bin BinOp.div a b) ts2
    | Tok.dslash :: ts1 => do
      let (b, ts2) ← pFactor fuel ts1
      pTermLoop fuel (PyExpr.bin BinOp.floorDiv a b) ts2
    | _ => some (a, ts)

/-- `factor`: unary signs over a power. -/
def pFactor : Nat → List Tok → Option (PyExpr × List Tok)
  | 0, _ => none
  | fuel + 1, ts =>
    match ts with
    | Tok.plus :: ts1 => do
      let (a, ts2) ← pFactor fuel ts1
      some (PyExpr.pos a, ts2)
    | Tok.minus :: ts1 => do
      let (a, ts2) ← pFactor fuel ts1
      some (PyExpr.neg a, ts2)
    | _ => pPower fuel ts

/-- `power`: an atom, optionally raised to a factor. -/
def pPower : Nat → List Tok → Option (PyExpr × List Tok)
  | 0, _ => none
  | fuel + 1, ts => do
    let (a, ts1) ← pAtom fuel ts
    match ts1 with
    | Tok.dstar :: ts2 => do
      let (b, ts3) ← pFactor fuel ts2
      some (PyExpr.bin BinOp.pow a b, ts3)
    | _ => some (a, ts1)

/-- `atom`: a number or a parenthesized expression. -/
def pAtom : Nat → List Tok → Option (PyExpr × List Tok)
  | 0, _ => none
  | fuel + 1, ts =>
    match ts with
    | Tok.num v :: ts1 => some (PyExpr.lit v, ts1)
    | Tok.lparen :: ts1 => do
      let (a, ts2) ← pExpr fuel ts1
      match ts2 with
      | Tok.rparen :: ts3 => some (a, ts3)
      | _ => none
    | _ => none

end

/-! ### Evaluation -/

/-- Whether a value is a Python float. -/
def pyIsFloat : PyVal → Bool
  | .int _ => false
  | .float _ => true

/-- The float magnitude of a value (Python's implicit int-to-float
promotion). -/
def toFloat : PyVal → PyFloat
  | .int i => PyFloat.ofInt i
  | .float x => x

/-- Python unary minus on a numeric value. -/
def pyNeg : PyVal → PyVal
  | .int i => .int (-i)
  | .float x => .float x.neg

/-- Python binary arithmetic on numeric values: ints stay ints under
`+ - *`, `/` is true division and always yields a float, `//` is floor
division (floor semantics, int result on ints), `**` is exponentiation
(int result for int base and non-negative int exponent, float for a
negative or float integral exponent); division and floor division by
zero and zero raised to a negative power raise `ZeroDivisionError` with
the messages CPython uses. -/
def pyBin : BinOp → PyVal → PyVal → Except PyErr PyVal
  | .add, .int a, .int b => .ok (.int (a + b))
  | .add, a, b => .ok (.float ((toFloat a).add (toFloat b)))
  | .sub, .int a, .int b => .ok (.int (a - b))
  | .sub, a, b => .ok (.float ((toFloat a).sub (toFloat b)))
  | .mul, .int a, .int b => .ok (.int (a * b))
  | .mul, a, b => .ok (.float ((toFloat a).mul (toFloat b)))
  | .div, a, b =>
    if (toFloat b).isZero then
      .error (.zeroDiv
        (if pyIsFloat a || pyIsFloat b then "float division by zero" else "division by zero"))
    else .ok (.float ((toFloat a).div (toFloat b)))
  | .floorDiv, .int a, .int b =>
    if b = 0 then .error (.zeroDiv "integer division or modulo by zero")
    else .ok (.int (Int.fdiv a b))
  | .floorDiv, a, b =>
    if (toFloat b).isZero then .error (.zeroDiv "float floor division by zero")
    else .ok (.float (PyFloat.ofInt ((toFloat a).div (toFloat b)).floor))
  | .pow, .int a, .int b =>
    if 0 ≤ b then .ok (.int (a ^ b.toNat))
    else if a = 0 then .error (.zeroDiv "0.0 cannot be raised to a negative power")
    else .ok (.float ((PyFloat.ofInt 1).div ((PyFloat.ofInt a).powNat b.natAbs)))
  | .pow, a, b =>
    if (toFloat b).isIntegral then
      if (toFloat b).isNeg then
        if (toFloat a).isZero then .error (.zeroDiv "0.0 cannot be raised to a negative power")
        else .ok (.float ((PyFloat.ofInt 1).div ((toFloat a).powNat (toFloat b).floor.natAbs)))
      else .ok (.float ((toFloat a).powNat (toFloat b).floor.toNat))
    else .error .unmodelled

/-- Evaluation of a parsed expression, left to right, propagating the
first raised error (Python compiles the whole expression before running
it, so runtime errors only arise on syntactically valid input). -/
def evalE : PyExpr → Except PyErr PyVal
  | .lit v => .ok v
  | .pos a => evalE a
  | .neg a => do
    let v ← evalE a
    .ok (pyNeg v)
  | .bin op a b => do
    let va ← evalE a
    let vb ← evalE b
    pyBin op va vb

/-- Python `eval` on a whitelisted expression string: tokenize, parse the
full expression, then evaluate.  Leftover tokens, a failed parse or a
lexical error are a `SyntaxError`. -/
def pyEval (s : String) : Except PyErr PyVal :=
  match lex (s.data.length + 1) s.data with
  | .error e => .error e
  | .ok ts =>
    match pExpr (8 * (ts.length + 1)) ts with
    | some (e, []) => evalE e
    | _ => .error .invalidExpr

/-! ### The `calculate` tool -/

/-- The character whitelist of `calculate`
(`set("0123456789+-*/(). ")` in the source). -/
def allowed_chars : List Char := "0123456789+-*/(). ".data

/-- `calculate` (src/agents/adk_agent.py, lines 24-42): reject any
expression with a character outside the whitelist, otherwise `eval` it
and return `str(result)`, or `"Error: " + str(e)` when evaluation
raises. -/
def calculate (expression : String) : String :=
  if !(expression.data.all (fun c => allowed_chars.contains c)) then
    "Error: Invalid characters in expression. Only numbers and basic operators allowed."
  else
    match pyEval expression with
    | .ok result => pyStr result
    | .error e => "Error: " ++ pyErrMsg e

/-- The inline `calculate` of src/deploy.py (lines 82-97): identical
logic, shorter invalid-character message. -/
def deploy_calculate (expression : String) : String :=
  if !(expression.data.all (fun c => allowed_chars.contains c)) then
    "Error: Invalid characters in expression."
  else
    match pyEval expression with
    | .ok result => pyStr result
    | .error e => "Error: " ++ pyErrMsg e

/-! ## The clock tool (src/agents/adk_agent.py, `get_current_time`) -/

/-- A stubbed clock instant, the fields of a Python `datetime`
(`datetime` guarantees `1 ≤ year ≤ 9999`, `1 ≤ month ≤ 12`,
`1 ≤ day ≤ 31`, `hour ≤ 23`, `minute ≤ 59`, `second ≤ 59`). -/
structure DateTime where
  year : Nat
  month : Nat
  day : Nat
  hour : Nat
  minute : Nat
  second : Nat
deriving Repr, DecidableEq

/-- `strftime`-style zero padding of a digit string to width `w`. -/
def padZero (w : Nat) (ds : List Char) : List Char :=
  List.replicate (w - ds.length) '0' ++ ds

/-- `get_current_time` (src/agents/adk_agent.py, lines 13-21) over a
stubbed instant: `now.strftime("%Y-%m-%d %H:%M:%S")`, i.e. the year
zero-padded to four digits and every other field to two, joined by the
literal separators of the format string. -/
def get_current_time (now : DateTime) : String :=
  ⟨padZero 4 (natDigits now.year) ++ '-' :: padZero 2 (natDigits now.month) ++ '-' ::
    padZero 2 (natDigits now.day) ++ ' ' :: padZero 2 (natDigits now.hour) ++ ':' ::
    padZero 2 (natDigits now.minute) ++ ':' :: padZero 2 (natDigits now.second)⟩

/-- Whether a string matches the shape `YYYY-MM-DD HH:MM:SS`: nineteen
characters, digits everywhere except the literal separators. -/
def isClockFormat (s : String) : Bool :=
  match s.data with
  | [y1, y2, y3, y4, '-', m1, m2, '-', d1, d2, ' ', h1, h2, ':', n1, n2, ':', c1, c2] =>
    y1.isDigit && y2.isDigit && y3.isDigit && y4.isDigit && m1.isDigit && m2.isDigit &&
    d1.isDigit && d2.isDigit && h1.isDigit && h2.isDigit && n1.isDigit && n2.isDigit &&
    c1.isDigit && c2.isDigit
  | _ => false

/-! ## The deployment CLI (src/deploy.py)

The external SDK calls (`vertexai.init`, `agent_engines.create`,
`agent_engines.delete`, `agent_engines.list`) are passed in as explicit
results; the console printers accumulate into a list of printed lines,
with the `print_error` / `print_success` / `print_info` prefixes of the
source.  A propagating Python exception is modelled as `raised = some e`
in the returned `RunResult`. -/

/-- What a CLI invocation did: the console lines printed, in order, and
the exception that propagated out, if any. -/
structure RunResult where
  printed : List String
  raised : Option String
deriving Repr, DecidableEq

/-- `print_error` renders `Error: <message>`. -/
def print_error_msg (m : String) : String := "Error: " ++ m

/-- `print_success` renders a check mark before the message. -/
def print_success_msg (m : String) : String := "✓ " ++ m

/-- `print_info` renders an info mark before the message. -/
def print_info_msg (m : String) : String := "ℹ " ++ m

/-- The `ValueError` message of deploy.py's `get_config` (line 40). -/
def deployMissingProjectMsg : String :=
  "GOOGLE_CLOUD_PROJECT environment variable is required."

/-- `get_config` (src/deploy.py, lines 36-46): the same resolution logic
as `Config.from_env`, with a shorter error message, returning the same
four fields. -/
def get_config (env : Env) : Except String Config :=
  match env "GOOGLE_CLOUD_PROJECT" with
  | none => .error deployMissingProjectMsg
  | some p =>
    if p = "" then .error deployMissingProjectMsg
    else .ok
      { project_id := p
        location := getenvD env "GOOGLE_CLOUD_LOCATION" "us-central1"
        staging_bucket := env "AGENT_ENGINE_STAGING_BUCKET"
        model_name := getenvD env "MODEL_NAME" "gemini-2.0-flash" }

/-- The success line of `initialize_vertexai` (src/deploy.py, lines
49-59). -/
def initMsg (cfg : Config) : String :=
  print_success_msg ("Initialized Vertex AI for project \x27" ++ cfg.project_id ++
    "\x27 in \x27" ++ cfg.location ++ "\x27")

/-- The error message printed when the staging bucket is missing
(src/deploy.py, lines 146-150). -/
def stagingBucketErrMsg : String :=
  "AGENT_ENGINE_STAGING_BUCKET is required for deployment. Create a GCS bucket and add it to your .env file."

/-- `deploy_agent` (src/deploy.py, lines 124-185): header, Vertex AI
initialization (configuration errors propagate; the source reads
`get_config` a second time with the same result), the staging-bucket
check (print an error and raise when it is unset or empty), then the
platform `create` call: on success print the resource name, on a
platform exception print `Deployment failed: <e>` and re-raise `e`. -/
def deploy_agent (env : Env) (createResult : Except String String) : RunResult :=
  let hdr := "Deploying ADK Agent to Agent Engine"
  match get_config env with
  | .error e => ⟨[hdr], some e⟩
  | .ok cfg =>
    if !(strOptTruthy cfg.staging_bucket) then
      ⟨[hdr, initMsg cfg, print_error_msg stagingBucketErrMsg],
        some "Staging bucket not configured"⟩
    else
      let pre := [hdr, initMsg cfg, print_info_msg "Creating ADK agent...",
        print_info_msg "Deploying to Agent Engine (this may take a few minutes)..."]
      match createResult with
      | .ok resource_name =>
        ⟨pre ++ [print_success_msg "Agent deployed successfully!",
          print_info_msg ("Resource name: " ++ resource_name)], none⟩
      | .error e => ⟨pre ++ [print_error_msg ("Deployment failed: " ++ e)], some e⟩

/-- `delete_agent` (src/deploy.py, lines 208-224): header, Vertex AI
initialization, then the platform `delete` call: on success print a
confirmation, on a platform exception print `Failed to delete agent: <e>`
and re-raise `e`. -/
def delete_agent (env : Env) (resource_name : String)
    (deleteResult : Except String Unit) : RunResult :=
  let hdr := "Deleting Agent"
  match get_config env with
  | .error e => ⟨[hdr], some e⟩
  | .ok cfg =>
    match deleteResult with
    | .ok _ =>
      ⟨[hdr, initMsg cfg,
        print_success_msg ("Agent \x27" ++ resource_name ++ "\x27 deleted successfully!")], none⟩
    | .error e =>
      ⟨[hdr, initMsg cfg, print_error_msg ("Failed to delete agent: " ++ e)], some e⟩

/-- `list_deployed_agents` (src/deploy.py, lines 188-205), with the
platform's agent list passed in and the two console lines per agent
abstracted to one. -/
def list_deployed_agents (env : Env) (agents : List String) : RunResult :=
  let hdr := "Deployed Agents"
  match get_config env with
  | .error e => ⟨[hdr], some e⟩
  | .ok cfg =>
    if agents = [] then ⟨[hdr, initMsg cfg, print_info_msg "No agents deployed yet."], none⟩
    else ⟨[hdr, initMsg cfg] ++ agents.map (fun a => "  - " ++ a), none⟩

/-- One of the three CLI actions (`argparse` `choices` guarantees no
other value reaches the dispatch). -/
inductive CliAction where
  | deploy | list | delete
deriving Repr, DecidableEq

/-- The parsed CLI arguments: the positional action, the optional
`--name` and the `--description` (defaulted by argparse). -/
structure Args where
  action : CliAction
  name : Option String
  description : String
deriving Repr

/-- The error printed when `delete` is requested without a name
(src/deploy.py, line 257). -/
def missingNameMsg : String :=
  "--name (resource name) is required for deletion"

/-- The `__main__` dispatch of src/deploy.py (lines 234-259): `deploy`
and `list` delegate directly; `delete` first checks `if not args.name`
(absent or empty) and prints an error and returns without raising,
otherwise delegates to `delete_agent`. -/
def cliMain (args : Args) (env : Env) (createResult : Except String String)
    (deleteResult : Except String Unit) (agents : List String) : RunResult :=
  match args.action with
  | .deploy => deploy_agent env createResult
  | .list => list_deployed_agents env agents
  | .delete =>
    if !(strOptTruthy args.name) then ⟨[print_error_msg missingNameMsg], none⟩
    else delete_agent env (args.name.getD "") deleteResult
/-! ## Claims about the configuration resolver -/

/-- C3: an environment with `GOOGLE_CLOUD_PROJECT` absent or empty makes
`Config.from_env` fail with the missing-required-field error rather than
return a configuration. -/
theorem from_env_missing_project (env : Env)
    (h : env "GOOGLE_CLOUD_PROJECT" = none ∨ env "GOOGLE_CLOUD_PROJECT" = some "") :
    Config.from_env env = .error missingProjectMsg := by
  rcases h with h | h <;> simp [Config.from_env, h]

/-- Witness for C3 at the empty environment and at an environment binding
the project variable to the empty string. -/
theorem from_env_missing_project_witness :
    Config.from_env (fun _ => none) = .error missingProjectMsg ∧
    Config.from_env (fun n => if n = "GOOGLE_CLOUD_PROJECT" then some "" else none)
      = .error missingProjectMsg :=
  ⟨from_env_missing_project _ (Or.inl rfl),
   from_env_missing_project _ (Or.inr (by simp))⟩

/-- C4: a non-empty `GOOGLE_CLOUD_PROJECT` makes `Config.from_env` succeed
with that value echoed unchanged as `project_id`; with only the required
field set, location and model name take their documented defaults and
there is no staging bucket. -/
theorem from_env_success (env : Env) (p : String)
    (hp : env "GOOGLE_CLOUD_PROJECT" = some p) (hne : p ≠ "") :
    (∃ cfg, Config.from_env env = .ok cfg ∧ cfg.project_id = p) ∧
    (env "GOOGLE_CLOUD_LOCATION" = none → env "MODEL_NAME" = none →
      env "AGENT_ENGINE_STAGING_BUCKET" = none →
      Config.from_env env = .ok ⟨p, "us-central1", none, "gemini-2.0-flash"⟩) := by
  constructor
  · refine ⟨⟨p, getenvD env "GOOGLE_CLOUD_LOCATION" "us-central1",
      env "AGENT_ENGINE_STAGING_BUCKET", getenvD env "MODEL_NAME" "gemini-2.0-flash"⟩, ?_, rfl⟩
    simp [Config.from_env, hp, hne]
  · intro hl hm hs
    simp [Config.from_env, hp, hne, getenvD, hl, hm, hs]

/-- Witness for C4 at an environment binding only the project variable. -/
theorem from_env_success_witness :
    Config.from_env (fun n => if n = "GOOGLE_CLOUD_PROJECT" then some "my-proj" else none)
      = .ok ⟨"my-proj", "us-central1", none, "gemini-2.0-flash"⟩ :=
  (from_env_success _ "my-proj" (by simp) (by simp)).2 (by simp) (by simp) (by simp)

/-- C8: the defaults for the optional fields apply only to unset variables:
a location or model name bound to the empty string is echoed as the empty
string, while a present-but-empty project id still fails. -/
theorem from_env_empty_optional_fields :
    (∀ (env : Env) (p : String), env "GOOGLE_CLOUD_PROJECT" = some p → p ≠ "" →
      env "GOOGLE_CLOUD_LOCATION" = some "" →
      ∃ cfg, Config.from_env env = .ok cfg ∧ cfg.location = "") ∧
    (∀ (env : Env) (p : String), env "GOOGLE_CLOUD_PROJECT" = some p → p ≠ "" →
      env "MODEL_NAME" = some "" →
      ∃ cfg, Config.from_env env = .ok cfg ∧ cfg.model_name = "") ∧
    (∀ env : Env, env "GOOGLE_CLOUD_PROJECT" = some "" →
      Config.from_env env = .error missingProjectMsg) := by
  refine ⟨?_, ?_, ?_⟩
  · intro env p hp hne hl
    refine ⟨⟨p, "", env "AGENT_ENGINE_STAGING_BUCKET",
      getenvD env "MODEL_NAME" "gemini-2.0-flash"⟩, ?_, rfl⟩
    simp [Config.from_env, hp, hne, getenvD, hl]
  · intro env p hp hne hm
    refine ⟨⟨p, getenvD env "GOOGLE_CLOUD_LOCATION" "us-central1",
      env "AGENT_ENGINE_STAGING_BUCKET", ""⟩, ?_, rfl⟩
    simp [Config.from_env, hp, hne, getenvD, hm]
  · intro env h
    simp [Config.from_env, h]

/-- Witness for C8 at an environment binding the optional variables to the
empty string. -/
theorem from_env_empty_optional_fields_witness :
    (∃ cfg, Config.from_env
        (fun n => if n = "GOOGLE_CLOUD_PROJECT" then some "p"
                  else if n = "GOOGLE_CLOUD_LOCATION" then some "" else none)
      = .ok cfg ∧ cfg.location = "") ∧
    (∃ cfg, Config.from_env
        (fun n => if n = "GOOGLE_CLOUD_PROJECT" then some "p"
                  else if n = "MODEL_NAME" then some "" else none)
      = .ok cfg ∧ cfg.model_name = "") ∧
    Config.from_env (fun n => if n = "GOOGLE_CLOUD_PROJECT" then some "" else none)
      = .error missingProjectMsg :=
  ⟨from_env_empty_optional_fields.1 _ "p" (by simp) (by simp) (by simp),
   from_env_empty_optional_fields.2.1 _ "p" (by simp) (by simp) (by simp),
   from_env_empty_optional_fields.2.2 _ (by simp)⟩

/-! ## Claims about the calculator -/

/-- C1: any input with at least one character outside the whitelist
`{0-9, +, -, *, /, (, ), ., space}` makes both copies of `calculate`
return the invalid-character error string without evaluating the
expression — the evaluator is never reached, so no code beyond
arithmetic runs. -/
theorem calculate_rejects_invalid_chars (s : String) (c : Char)
    (hc : c ∈ s.data) (hno : c ∉ allowed_chars) :
    calculate s =
      "Error: Invalid characters in expression. Only numbers and basic operators allowed." ∧
    deploy_calculate s = "Error: Invalid characters in expression." := by
  have hall : s.data.all (fun c => allowed_chars.contains c) = false := by
    rw [List.all_eq_false]
    exact ⟨c, hc, by simpa using hno⟩
  constructor <;> simp only [calculate, deploy_calculate, hall] <;> rfl

/-- Witness for C1 at the injection string of the specification. -/
theorem calculate_rejects_invalid_chars_witness :
    calculate "2; import os" =
      "Error: Invalid characters in expression. Only numbers and basic operators allowed." ∧
    deploy_calculate "2; import os" = "Error: Invalid characters in expression." :=
  calculate_rejects_invalid_chars "2; import os" ';' (by decide) (by decide)

/-- C2: `calculate` is a total function into strings (no fault reaches
the caller in the embedding), and every evaluation failure on
whitelist-passing input is returned as an `Error:`-prefixed string;
division by zero and the malformed `"(1+2"` both come back as error
strings. -/
theorem calculate_returns_error_strings :
    (∀ (s : String) (e : PyErr),
      s.data.all (fun c => allowed_chars.contains c) = true →
      pyEval s = .error e →
      calculate s = "Error: " ++ pyErrMsg e) ∧
    calculate "10 / 0" = "Error: division by zero" ∧
    calculate "(1+2" = "Error: invalid syntax" := by
  refine ⟨?_, by decide, by decide⟩
  intro s e hall he
  simp only [calculate, hall, he]
  rfl

/-- Witness for C2: the universally quantified conjunct applied at the
division-by-zero input. -/
theorem calculate_returns_error_strings_witness :
    calculate "10 / 0" = "Error: " ++ pyErrMsg (PyErr.zeroDiv "division by zero") :=
  calculate_returns_error_strings.1 "10 / 0" (PyErr.zeroDiv "division by zero")
    (by decide) rfl

/-- C5: the calculator evaluates `"2 + 2 * 3"` with multiplication
binding tighter than addition and returns the textual result `"8"`. -/
theorem calculate_precedence : calculate "2 + 2 * 3" = "8" := by decide

/-- C9: `/` is Python true division — on int operands it always yields a
float, and an integral float prints with a trailing `.0`, so
`calculate "4 / 2"` returns `"2.0"`, not `"2"`. -/
theorem calculate_true_division :
    (∀ a b : ℤ, b ≠ 0 →
      ∃ x : PyFloat, pyBin BinOp.div (PyVal.int a) (PyVal.int b) = .ok (.float x) ∧
        x.val = (a : ℚ) / (b : ℚ)) ∧
    calculate "4 / 2" = "2.0" := by
  refine ⟨?_, by decide⟩
  intro a b hb
  refine ⟨(toFloat (PyVal.int a)).div (toFloat (PyVal.int b)), ?_, ?_⟩
  · simp [pyBin, toFloat, PyFloat.ofInt, PyFloat.isZero, hb]
  · by_cases h : (0 : ℤ) ≤ b <;>
      simp [toFloat, PyFloat.ofInt, PyFloat.div, PyFloat.val, h, mul_one, one_mul]

/-- Witness for C9: the generic division fact applied at `4 / 2`. -/
theorem calculate_true_division_witness :
    ∃ x : PyFloat, pyBin BinOp.div (PyVal.int 4) (PyVal.int 2) = .ok (.float x) ∧
      x.val = ((4 : ℤ) : ℚ) / ((2 : ℤ) : ℚ) :=
  calculate_true_division.1 4 2 (by decide)

/-- C10: the character whitelist admits the multi-character operators
`**` and `//`, so exponentiation and floor division pass validation and
evaluate: `calculate "2 ** 3"` is `"8"` and `calculate "7 // 2"` is
`"3"`, not an invalid-character error. -/
theorem calculate_pow_floordiv :
    calculate "2 ** 3" = "8" ∧ calculate "7 // 2" = "3" := by
  exact ⟨by decide, by decide⟩

/-! ## Claims about the clock tool -/

/-- Digit characters of digits below ten are decimal digit characters. -/
theorem digitChar_isDigit {d : Nat} (h : d < 10) : (Nat.digitChar d).isDigit = true := by
  interval_cases d <;> decide

/-- Every character `natDigitsAux` emits is a decimal digit. -/
theorem natDigitsAux_digits : ∀ (fuel n : Nat), n < fuel →
    ∀ c ∈ natDigitsAux fuel n, c.isDigit = true := by
  intro fuel
  induction fuel with
  | zero => intro n h; omega
  | succ fuel ih =>
    intro n hn c hc
    rw [natDigitsAux] at hc
    by_cases h : n < 10
    · simp only [if_pos h, List.mem_singleton] at hc
      subst hc
      exact digitChar_isDigit h
    · simp only [if_neg h, List.mem_append, List.mem_singleton] at hc
      rcases hc with hc | hc
      · exact ih (n / 10) (by omega) c hc
      · subst hc
        exact digitChar_isDigit (Nat.mod_lt _ (by norm_num))

/-- `natDigitsAux` emits at most `k + 1` digits for a number below
`10 ^ (k + 1)`. -/
theorem natDigitsAux_length : ∀ (fuel n k : Nat), n < fuel → n < 10 ^ (k + 1) →
    (natDigitsAux fuel n).length ≤ k + 1 := by
  intro fuel
  induction fuel with
  | zero => intro n k h; omega
  | succ fuel ih =>
    intro n k hn hk
    rw [natDigitsAux]
    by_cases h : n < 10
    · simp [if_pos h]
    · simp only [if_neg h, List.length_append, List.length_singleton]
      cases k with
      | zero => simp at hk; omega
      | succ k =>
        have hp : n < 10 ^ (k + 1) * 10 := by
          rw [← pow_succ]
          exact hk
        have h1 : n / 10 < 10 ^ (k + 1) := by omega
        have h2 : n / 10 < fuel := by omega
        have := ih (n / 10) k h2 h1
        omega

/-- A zero-padded digit block: exact length and all characters digits. -/
theorem padZero_natDigits (w n : Nat) (hw : 1 ≤ w) (hn : n < 10 ^ w) :
    (padZero w (natDigits n)).length = w ∧
    ∀ c ∈ padZero w (natDigits n), c.isDigit = true := by
  have hlen : (natDigits n).length ≤ w := by
    rcases Nat.exists_eq_add_of_le hw with ⟨k, hk⟩
    have hb : n < 10 ^ (k + 1) := by rw [hk, add_comm 1 k] at hn; exact hn
    have hx := natDigitsAux_length (n + 1) n k (by omega) hb
    have hd : natDigits n = natDigitsAux (n + 1) n := rfl
    rw [hd]
    omega
  constructor
  · simp only [padZero, List.length_append, List.length_replicate]
    omega
  · intro c hc
    simp only [padZero, List.mem_append, List.mem_replicate] at hc
    rcases hc with ⟨_, hc⟩ | hc
    · subst hc; decide
    · exact natDigitsAux_digits (n + 1) n (by omega) c hc

/-- A list of length two is a two-element literal. -/
theorem exists_len_two {α : Type} (l : List α) (h : l.length = 2) :
    ∃ a b, l = [a, b] := by
  rcases l with _ | ⟨a, _ | ⟨b, _ | ⟨c, l⟩⟩⟩ <;> simp_all

/-- A list of length four is a four-element literal. -/
theorem exists_len_four {α : Type} (l : List α) (h : l.length = 4) :
    ∃ a b c d, l = [a, b, c, d] := by
  rcases l with _ | ⟨a, _ | ⟨b, _ | ⟨c, _ | ⟨d, _ | ⟨e, l⟩⟩⟩⟩⟩ <;> simp_all

/-- C7: for every stubbed instant within the field bounds a Python
`datetime` can carry, the clock tool's output matches the fixed shape
`YYYY-MM-DD HH:MM:SS`. -/
theorem get_current_time_format (now : DateTime)
    (hy : now.year < 10000) (hmo : now.month < 100) (hd : now.day < 100)
    (hh : now.hour < 100) (hmi : now.minute < 100) (hs : now.second < 100) :
    isClockFormat (get_current_time now) = true := by
  obtain ⟨hyl, hyd⟩ := padZero_natDigits 4 now.year (by norm_num) (by norm_num; omega)
  obtain ⟨hmol, hmod⟩ := padZero_natDigits 2 now.month (by norm_num) (by norm_num; omega)
  obtain ⟨hdl, hdd⟩ := padZero_natDigits 2 now.day (by norm_num) (by norm_num; omega)
  obtain ⟨hhl, hhd⟩ := padZero_natDigits 2 now.hour (by norm_num) (by norm_num; omega)
  obtain ⟨hmil, hmid⟩ := padZero_natDigits 2 now.minute (by norm_num) (by norm_num; omega)
  obtain ⟨hsl, hsd⟩ := padZero_natDigits 2 now.second (by norm_num) (by norm_num; omega)
  obtain ⟨y1, y2, y3, y4, hy4⟩ := exists_len_four _ hyl
  obtain ⟨m1, m2, hm2⟩ := exists_len_two _ hmol
  obtain ⟨d1, d2, hd2⟩ := exists_len_two _ hdl
  obtain ⟨h1, h2, hh2⟩ := exists_len_two _ hhl
  obtain ⟨n1, n2, hn2⟩ := exists_len_two _ hmil
  obtain ⟨c1, c2, hc2⟩ := exists_len_two _ hsl
  rw [hy4] at hyd
  rw [hm2] at hmod
  rw [hd2] at hdd
  rw [hh2] at hhd
  rw [hn2] at hmid
  rw [hc2] at hsd
  simp only [List.mem_cons, List.not_mem_nil, or_false, forall_eq_or_imp, forall_eq]
    at hyd hmod hdd hhd hmid hsd
  simp [get_current_time, isClockFormat, hy4, hm2, hd2, hh2, hn2, hc2,
    hyd.1, hyd.2.1, hyd.2.2.1, hyd.2.2.2, hmod.1, hmod.2, hdd.1, hdd.2,
    hhd.1, hhd.2, hmid.1, hmid.2, hsd.1, hsd.2]

/-- Witness for C7 at a concrete stubbed instant. -/
theorem get_current_time_format_witness :
    isClockFormat (get_current_time ⟨2026, 10, 12, 3, 4, 5⟩) = true :=
  get_current_time_format ⟨2026, 10, 12, 3, 4, 5⟩ (by norm_num) (by norm_num)
    (by norm_num) (by norm_num) (by norm_num) (by norm_num)

/-! ## Claims about the deployment CLI -/

/-- C6: the `delete` action without a (truthy) `--name` prints an error
and returns without raising; a platform exception during `delete` or
`deploy` is re-raised after the corresponding error message is printed
as the last console line. -/
theorem cliMain_delete_and_reraise :
    (∀ (env : Env) (cr : Except String String) (dr : Except String Unit)
        (al : List String) (d : String),
      cliMain ⟨CliAction.delete, none, d⟩ env cr dr al =
        ⟨[print_error_msg missingNameMsg], none⟩) ∧
    (∀ (env : Env) (cfg : Config) (n d : String) (cr : Except String String)
        (al : List String) (e : String), n ≠ "" → get_config env = .ok cfg →
      (cliMain ⟨CliAction.delete, some n, d⟩ env cr (.error e) al).raised = some e ∧
      (cliMain ⟨CliAction.delete, some n, d⟩ env cr (.error e) al).printed.getLast? =
        some (print_error_msg ("Failed to delete agent: " ++ e))) ∧
    (∀ (env : Env) (cfg : Config) (nm : Option String) (d : String)
        (dr : Except String Unit) (al : List String) (e : String),
      get_config env = .ok cfg → strOptTruthy cfg.staging_bucket = true →
      (cliMain ⟨CliAction.deploy, nm, d⟩ env (.error e) dr al).raised = some e ∧
      (cliMain ⟨CliAction.deploy, nm, d⟩ env (.error e) dr al).printed.getLast? =
        some (print_error_msg ("Deployment failed: " ++ e))) := by
  refine ⟨?_, ?_, ?_⟩
  · intro env cr dr al d
    rfl
  · intro env cfg n d cr al e hn hcfg
    simp only [cliMain, delete_agent, strOptTruthy, hn, hcfg]
    constructor <;> rfl
  · intro env cfg nm d dr al e hcfg hsb
    simp only [cliMain, deploy_agent, hcfg, hsb]
    constructor <;> rfl

/-- Witness for C6 at a concrete environment, name and platform
exception. -/
theorem cliMain_delete_and_reraise_witness :
    (cliMain ⟨CliAction.delete, none, "d"⟩
        (fun k => if k = "GOOGLE_CLOUD_PROJECT" then some "p"
                  else if k = "AGENT_ENGINE_STAGING_BUCKET" then some "gs" else none)
        (.ok "r") (.ok ()) [] =
      ⟨[print_error_msg missingNameMsg], none⟩) ∧
    (cliMain ⟨CliAction.delete, some "agent-1", "d"⟩
        (fun k => if k = "GOOGLE_CLOUD_PROJECT" then some "p"
                  else if k = "AGENT_ENGINE_STAGING_BUCKET" then some "gs" else none)
        (.ok "r") (.error "boom") []).raised = some "boom" ∧
    (cliMain ⟨CliAction.deploy, none, "d"⟩
        (fun k => if k = "GOOGLE_CLOUD_PROJECT" then some "p"
                  else if k = "AGENT_ENGINE_STAGING_BUCKET" then some "gs" else none)
        (.error "crash") (.ok ()) []).raised = some "crash" :=
  ⟨cliMain_delete_and_reraise.1
      (fun k => if k = "GOOGLE_CLOUD_PROJECT" then some "p"
                else if k = "AGENT_ENGINE_STAGING_BUCKET" then some "gs" else none)
      (.ok "r") (.ok ()) [] "d",
   (cliMain_delete_and_reraise.2.1
      (fun k => if k = "GOOGLE_CLOUD_PROJECT" then some "p"
                else if k = "AGENT_ENGINE_STAGING_BUCKET" then some "gs" else none)
      ⟨"p", "us-central1", some "gs", "gemini-2.0-flash"⟩ "agent-1" "d" (.ok "r") [] "boom"
      (by decide) rfl).1,
   (cliMain_delete_and_reraise.2.2
      (fun k => if k = "GOOGLE_CLOUD_PROJECT" then some "p"
                else if k = "AGENT_ENGINE_STAGING_BUCKET" then some "gs" else none)
      ⟨"p", "us-central1", some "gs", "gemini-2.0-flash"⟩ none "d" (.ok ()) [] "crash"
      rfl rfl).1⟩
